import Mathlib

/- Formal verification of the dynamic CIBIL scoring engine from
   main_app/cibil_calculator.py (class DynamicCibilScoreCalculator) and its
   caller main_app/views.py.

   Conventions of the embedding:
   - Python floats are modelled as exact rationals; every numeric literal of
     the source appears verbatim.  None of the properties proved below
     depends on binary floating-point representation artifacts.
   - Python round(x, n) rounds half to even; roundHE and roundTo model this.
   - Python int(x) truncates toward zero; truncQ and truncR model this.
   - Dates and datetimes are day numbers (integers).  The source reads the
     wall clock via datetime.now() and timezone.now(); the embedding passes
     that value explicitly as the parameter today.
   - Django querysets over one customer become lists in a CustomerState
     snapshot; .count(), .filter(...), Sum(...) become List.length,
     List.filter, List.sum.
   - The math.exp and math.pow stage of the scale conversion is modelled
     over the real numbers.
   - Fallible code (a division that can raise ZeroDivisionError, eager input
     validation) returns Except CalcError. -/

namespace Cibil

/- Rounding and truncation helpers -/

/-- Python round half to even of a rational, to an integer. -/
def roundHE (q : ℚ) : ℤ :=
  if q - ⌊q⌋ < 1/2 then ⌊q⌋
  else if 1/2 < q - ⌊q⌋ then ⌊q⌋ + 1
  else if ⌊q⌋ % 2 = 0 then ⌊q⌋ else ⌊q⌋ + 1

/-- Python round(x, n): round half to even at n decimal digits. -/
def roundTo (n : ℕ) (q : ℚ) : ℚ := (roundHE (q * 10 ^ n) : ℚ) / 10 ^ n

/-- Python int(x) on a rational: truncation toward zero. -/
def truncQ (q : ℚ) : ℤ := if 0 ≤ q then ⌊q⌋ else ⌈q⌉

/- Data model: the rows the calculator reads (main_app/models.py) -/

/-- PaymentHistory.payment_status choices (models.py PAYMENT_STATUS). -/
inductive PaymentStatus where
  | onTime | late1_30 | late31_60 | late61_90 | late90Plus | missed | defaulted
deriving DecidableEq

/-- Loan.loan_type choices (models.py LOAN_TYPES). -/
inductive LoanType where
  | homeLoan | personalLoan | carLoan | educationLoan | businessLoan | goldLoan
deriving DecidableEq

/-- Loan.status choices (models.py LOAN_STATUS). -/
inductive LoanStatus where
  | active | closed | overdue | defaulted
deriving DecidableEq

/-- One PaymentHistory row, restricted to the fields the calculator reads;
payment_date is nullable in models.py. -/
structure PaymentRec where
  payment_status : PaymentStatus
  payment_date : Option ℤ
deriving DecidableEq

/-- One CreditCard row, restricted to the fields the calculator reads. -/
structure CardRec where
  credit_limit : ℚ
  current_balance : ℚ
  card_issued_date : ℤ
  is_active : Bool
  created_at : ℤ
deriving DecidableEq

/-- One Loan row, restricted to the fields the calculator reads. -/
structure LoanRec where
  loan_type : LoanType
  status : LoanStatus
  loan_start_date : ℤ
  created_at : ℤ
deriving DecidableEq

/-- One BankAccount row, restricted to the fields the calculator reads. -/
structure AccountRec where
  account_opened_date : ℤ
  is_active : Bool
deriving DecidableEq

/-- Snapshot of all stored rows belonging to one customer: the facts the
derived-mode calculator aggregates. -/
structure CustomerState where
  payments : List PaymentRec
  cards : List CardRec
  loans : List LoanRec
  accounts : List AccountRec
deriving DecidableEq

/- Weight handling (cibil_calculator.py lines 12-57) -/

/-- The five factor weights as fractions (the score_factors dict). -/
structure Weights where
  payment_history : ℚ
  credit_utilization : ℚ
  credit_history_length : ℚ
  credit_mix : ℚ
  new_credit : ℚ
deriving DecidableEq

/-- default_score_factors (lines 16-22). -/
def default_score_factors : Weights :=
  { payment_history := 0.35
    credit_utilization := 0.30
    credit_history_length := 0.15
    credit_mix := 0.10
    new_credit := 0.10 }

/-- A user-supplied custom_weights dict: each of the five recognized keys is
either present with a value or absent.  Keys outside the five factor names
are dropped by the loop of lines 40-44 and are not modelled. -/
structure CustomWeights where
  payment_history : Option ℚ
  credit_utilization : Option ℚ
  credit_history_length : Option ℚ
  credit_mix : Option ℚ
  new_credit : Option ℚ
deriving DecidableEq

/-- Percentage-to-decimal conversion (line 43): a value above 1 is read as a
percentage and divided by 100. -/
def convert_weight (v : ℚ) : ℚ := if 1 < v then v / 100 else v

/-- One factor after the two loops of lines 39-49: the converted provided
value, or the default when the key is absent. -/
def resolve_weight (o : Option ℚ) (d : ℚ) : ℚ :=
  match o with
  | some v => convert_weight v
  | none => d

/-- The normalized_weights dict after the fill loop (lines 39-49), before
rescaling. -/
def filled_weights (cw : CustomWeights) : Weights :=
  { payment_history :=
      resolve_weight cw.payment_history default_score_factors.payment_history
    credit_utilization :=
      resolve_weight cw.credit_utilization default_score_factors.credit_utilization
    credit_history_length :=
      resolve_weight cw.credit_history_length default_score_factors.credit_history_length
    credit_mix :=
      resolve_weight cw.credit_mix default_score_factors.credit_mix
    new_credit :=
      resolve_weight cw.new_credit default_score_factors.new_credit }

/-- Sum of the five weight fractions (line 52). -/
def total_weight (w : Weights) : ℚ :=
  w.payment_history + w.credit_utilization + w.credit_history_length +
    w.credit_mix + w.new_credit

/-- Error kinds of the engine: the names the spec (section 7) gives to the
exceptions the computation can raise. -/
inductive CalcError where
  | zeroTotalWeight
  | paymentCountMismatch
  | negativeValue
deriving DecidableEq

/-- _validate_and_normalize_weights (lines 34-57).  The source divides every
weight by total_weight whenever the total differs from 1.0; with a zero
total that division raises ZeroDivisionError, modelled here as the explicit
error CalcError.zeroTotalWeight. -/
def validate_and_normalize_weights (cw : CustomWeights) : Except CalcError Weights :=
  let w := filled_weights cw
  let total := total_weight w
  if total = 1 then .ok w
  else if total = 0 then .error .zeroTotalWeight
  else .ok
    { payment_history := w.payment_history / total
      credit_utilization := w.credit_utilization / total
      credit_history_length := w.credit_history_length / total
      credit_mix := w.credit_mix / total
      new_credit := w.new_credit / total }

/- Factor scorers (lines 126-290) -/

/-- The late statuses of the filter on lines 137-139. -/
def isLateStatus : PaymentStatus → Bool
  | .late1_30 | .late31_60 | .late61_90 | .late90Plus => true
  | _ => false

/-- The missed statuses of the filter on lines 140-142. -/
def isMissedStatus : PaymentStatus → Bool
  | .missed | .defaulted => true
  | _ => false

/-- Scoring core of _calculate_payment_history_score (lines 132-155),
parametrized by the four aggregate counts the queryset produces. -/
def payment_history_from_counts (total onTime lateCount missedCount : ℕ) : ℚ :=
  if total = 0 then 50.0
  else
    let on_time_ratio : ℚ := (onTime : ℚ) / total
    let late_ratio : ℚ := (lateCount : ℚ) / total
    let missed_ratio : ℚ := (missedCount : ℚ) / total
    let base_score := on_time_ratio * 100
    let late_penalty := late_ratio * 30
    let missed_penalty := missed_ratio * 50
    roundTo 2 (max 0 (base_score - late_penalty - missed_penalty))

/-- _calculate_payment_history_score (lines 126-155). -/
def calculate_payment_history_score (s : CustomerState) : ℚ :=
  payment_history_from_counts
    s.payments.length
    (s.payments.countP (fun p => p.payment_status = PaymentStatus.onTime))
    (s.payments.countP (fun p => isLateStatus p.payment_status))
    (s.payments.countP (fun p => isMissedStatus p.payment_status))

/-- Bucket table of _calculate_credit_utilization_score (lines 177-190). -/
def utilization_bucket (r : ℚ) : ℚ :=
  if r ≤ 0.05 then 95.0
  else if r ≤ 0.10 then 100.0
  else if r ≤ 0.30 then 85.0
  else if r ≤ 0.50 then 65.0
  else if r ≤ 0.70 then 45.0
  else if r ≤ 0.90 then 25.0
  else 10.0

/-- _calculate_credit_utilization_score (lines 157-190). -/
def calculate_credit_utilization_score (s : CustomerState) : ℚ :=
  let credit_cards := s.cards.filter (fun c => c.is_active)
  if credit_cards.isEmpty then 70.0
  else
    let total_limit := (credit_cards.map (fun c => c.credit_limit)).sum
    let total_balance := (credit_cards.map (fun c => c.current_balance)).sum
    if total_limit = 0 then 70.0
    else utilization_bucket (total_balance / total_limit)

/-- Least element of a list of day numbers: order_by(date).first() on a
nonempty queryset picks the least date. -/
def listMinD : List ℤ → Option ℤ
  | [] => none
  | x :: xs => some (xs.foldl min x)

/-- The oldest_dates list of lines 201-207 (and again lines 524-530): the
least loan start date, least card issue date and least account opening
date, one entry per nonempty category. -/
def oldest_dates (s : CustomerState) : List ℤ :=
  (match listMinD (s.loans.map (fun l => l.loan_start_date)) with
    | some d => [d]
    | none => []) ++
  (match listMinD (s.cards.map (fun c => c.card_issued_date)) with
    | some d => [d]
    | none => []) ++
  (match listMinD (s.accounts.map (fun a => a.account_opened_date)) with
    | some d => [d]
    | none => [])

/-- _calculate_credit_history_length_score (lines 192-227); today is the
value of datetime.now().date() as a day number. -/
def calculate_credit_history_length_score (s : CustomerState) (today : ℤ) : ℚ :=
  match listMinD (oldest_dates s) with
  | none => 30.0
  | some oldest =>
    let years_of_history : ℚ := ((today - oldest : ℤ) : ℚ) / 365.25
    if 10 ≤ years_of_history then 100.0
    else if 7 ≤ years_of_history then 85.0
    else if 5 ≤ years_of_history then 70.0
    else if 3 ≤ years_of_history then 55.0
    else if 1 ≤ years_of_history then 40.0
    else 25.0

/-- _calculate_credit_mix_score (lines 229-259).  The source accumulates the
points with successive additions; the order of the additions is kept. -/
def calculate_credit_mix_score (s : CustomerState) : ℚ :=
  let loan_types :=
    (s.loans.filter (fun l => l.status = LoanStatus.active)).map (fun l => l.loan_type)
  let has_credit_cards := !(s.cards.filter (fun c => c.is_active)).isEmpty
  let has_bank_accounts := !(s.accounts.filter (fun a => a.is_active)).isEmpty
  let credit_mix_score : ℚ :=
    (if has_credit_cards then 30 else 0) +
    (if has_bank_accounts then 20 else 0) +
    (if LoanType.homeLoan ∈ loan_types then 25 else 0) +
    (if LoanType.carLoan ∈ loan_types then 15 else 0) +
    (if LoanType.personalLoan ∈ loan_types then 10 else 0)
  min 100.0 credit_mix_score

/-- _calculate_new_credit_score (lines 261-290); today is timezone.now() as
a day number, six_months_ago is today - 180.  The created_at filters run
over all loans and all cards, with no is_active restriction. -/
def calculate_new_credit_score (s : CustomerState) (today : ℤ) : ℚ :=
  let six_months_ago := today - 180
  let recent_loans := (s.loans.filter (fun l => six_months_ago ≤ l.created_at)).length
  let recent_cards := (s.cards.filter (fun c => six_months_ago ≤ c.created_at)).length
  let total_recent_accounts := recent_loans + recent_cards
  if total_recent_accounts = 0 then 100.0
  else if total_recent_accounts = 1 then 80.0
  else if total_recent_accounts = 2 then 60.0
  else if total_recent_accounts ≤ 4 then 40.0
  else 20.0

/- Helper aggregates (lines 452-535) -/

/-- _get_total_credit_limit (lines 452-456). -/
def get_total_credit_limit (s : CustomerState) : ℚ :=
  ((s.cards.filter (fun c => c.is_active)).map (fun c => c.credit_limit)).sum

/-- _get_account_diversity_score (lines 458-477); the set of distinct active
loan types becomes dedup of the mapped list. -/
def get_account_diversity_score (s : CustomerState) : ℚ :=
  let card_points : ℚ :=
    if (s.cards.filter (fun c => c.is_active)).isEmpty then 0 else 25
  let loan_types :=
    ((s.loans.filter (fun l => l.status = LoanStatus.active)).map
      (fun l => l.loan_type)).dedup
  let account_points : ℚ :=
    if (s.accounts.filter (fun a => a.is_active)).isEmpty then 0 else 20
  min 100.0 (card_points + (loan_types.length : ℚ) * 15 + account_points)

/-- _get_payment_consistency_score (lines 479-494); the recent payments are
those with a non-null payment_date within the last 180 days. -/
def get_payment_consistency_score (s : CustomerState) (today : ℤ) : ℚ :=
  let six_months_ago := today - 180
  let recent_payments := s.payments.filter (fun p =>
    match p.payment_date with
    | some d => six_months_ago ≤ d
    | none => false)
  if recent_payments.length < 3 then 50.0
  else
    let on_time_payments :=
      recent_payments.countP (fun p => p.payment_status = PaymentStatus.onTime)
    let consistency_ratio : ℚ := (on_time_payments : ℚ) / recent_payments.length
    consistency_ratio * 100

/-- _get_credit_age_years (lines 518-535). -/
def get_credit_age_years (s : CustomerState) (today : ℤ) : ℚ :=
  match listMinD (oldest_dates s) with
  | some oldest => ((today - oldest : ℤ) : ℚ) / 365.25
  | none => 0

/-- _get_credit_growth_score (lines 496-516); old_cards sums the limits of
all cards (active or not) created at least 365 days ago. -/
def get_credit_growth_score (s : CustomerState) (today : ℤ) : ℚ :=
  let one_year_ago := today - 365
  let current_limit := get_total_credit_limit s
  let old_cards :=
    ((s.cards.filter (fun c => c.created_at ≤ one_year_ago)).map
      (fun c => c.credit_limit)).sum
  if 0 < old_cards then
    let growth_rate := (current_limit - old_cards) / old_cards
    if 0.10 ≤ growth_rate ∧ growth_rate ≤ 0.50 then 85.0
    else if (0.05 ≤ growth_rate ∧ growth_rate < 0.10) ∨
        (0.50 < growth_rate ∧ growth_rate ≤ 0.80) then 70.0
    else 50.0
  else 60.0

/- Behavioral adjustments (lines 367-448) -/

/-- _get_underutilization_penalty (lines 391-411). -/
def get_underutilization_penalty (s : CustomerState) : ℚ :=
  let credit_cards := s.cards.filter (fun c => c.is_active)
  if credit_cards.isEmpty then 1.0
  else
    let total_limit := (credit_cards.map (fun c => c.credit_limit)).sum
    let total_balance := (credit_cards.map (fun c => c.current_balance)).sum
    if 0 < total_limit then
      let utilization := total_balance / total_limit
      if utilization < 0.05 ∧ 100000 < total_limit then 0.85
      else if utilization < 0.02 ∧ 50000 < total_limit then 0.92
      else if utilization < 0.01 ∧ 25000 < total_limit then 0.95
      else 1.0
    else 1.0

/-- _get_credit_diversity_adjustment (lines 413-424). -/
def get_credit_diversity_adjustment (s : CustomerState) : ℚ :=
  let diversity_score := get_account_diversity_score s
  if 80 ≤ diversity_score then 1.05
  else if 60 ≤ diversity_score then 1.02
  else if diversity_score < 30 then 0.95
  else 1.0

/-- _get_payment_consistency_adjustment (lines 426-437). -/
def get_payment_consistency_adjustment (s : CustomerState) (today : ℤ) : ℚ :=
  let consistency_score := get_payment_consistency_score s today
  if 90 ≤ consistency_score then 1.03
  else if 75 ≤ consistency_score then 1.01
  else if consistency_score < 50 then 0.97
  else 1.0

/-- _get_credit_growth_adjustment (lines 439-448). -/
def get_credit_growth_adjustment (s : CustomerState) (today : ℤ) : ℚ :=
  let growth_score := get_credit_growth_score s today
  if 70 ≤ growth_score ∧ growth_score ≤ 85 then 1.02
  else if 90 < growth_score ∨ growth_score < 30 then 0.98
  else 1.0

/-- _get_behavioral_adjustments (lines 367-389): product of the four
sub-multipliers, rounded to 4 digits. -/
def get_behavioral_adjustments (s : CustomerState) (today : ℤ) : ℚ :=
  roundTo 4 (get_underutilization_penalty s * get_credit_diversity_adjustment s *
    get_payment_consistency_adjustment s today * get_credit_growth_adjustment s today)

/- Dynamic score range (lines 294-340) -/

/-- base_min_score (line 31). -/
def base_min_score : ℚ := 200

/-- base_max_score (line 32). -/
def base_max_score : ℚ := 1000

/-- Credit-maturity increment to range_multiplier (lines 308-313). -/
def maturity_adjustment (credit_history_years : ℚ) : ℚ :=
  if 10 ≤ credit_history_years then 0.2
  else if 5 ≤ credit_history_years then 0.1
  else if credit_history_years < 1 then -0.1
  else 0

/-- Credit-exposure increment to range_multiplier (lines 316-321). -/
def exposure_adjustment (total_credit_limit : ℚ) : ℚ :=
  if 500000 < total_credit_limit then 0.15
  else if 100000 < total_credit_limit then 0.05
  else if total_credit_limit < 25000 then -0.05
  else 0

/-- Account-diversity increment to range_multiplier (lines 324-327). -/
def diversity_adjustment (account_diversity : ℚ) : ℚ :=
  if 80 ≤ account_diversity then 0.1
  else if account_diversity < 40 then -0.05
  else 0

/-- range_multiplier after the three additive adjustments (lines 305-327). -/
def range_multiplier (s : CustomerState) (today : ℤ) : ℚ :=
  1.0 + maturity_adjustment (get_credit_age_years s today) +
    exposure_adjustment (get_total_credit_limit s) +
    diversity_adjustment (get_account_diversity_score s)

/-- The result dict of _calculate_dynamic_score_range (lines 335-340). -/
structure DynamicRange where
  min_score : ℤ
  max_score : ℤ
  range_multiplier : ℚ
  range_width : ℤ
deriving DecidableEq

/-- _calculate_dynamic_score_range (lines 294-340).  The source also calls
_get_payment_consistency_score here (line 302) but never uses the value, so
the call is dropped. -/
def calculate_dynamic_score_range (s : CustomerState) (today : ℤ) : DynamicRange :=
  let m := range_multiplier s today
  let range_expansion := (base_max_score - base_min_score) * (m - 1)
  let dynamic_min := max 150 (truncQ (base_min_score - range_expansion / 2))
  let dynamic_max := min 1200 (truncQ (base_max_score + range_expansion / 2))
  { min_score := dynamic_min
    max_score := dynamic_max
    range_multiplier := roundTo 3 m
    range_width := dynamic_max - dynamic_min }

/- Scale conversion (lines 342-363) -/

/-- Python int(x) on a real: truncation toward zero. -/
noncomputable def truncR (x : ℝ) : ℤ := if 0 ≤ x then ⌊x⌋ else ⌈x⌉

/-- _convert_to_dynamic_scale (lines 342-363), over the reals because of
math.exp and math.pow. -/
noncomputable def convert_to_dynamic_scale (score_0_100 : ℚ) (r : DynamicRange) : ℤ :=
  let normalized_score : ℝ := ((max 0 (min 100 score_0_100) : ℚ) : ℝ) / 100
  let sigmoid_score : ℝ := 1 / (1 + Real.exp (-(8 : ℝ) * (normalized_score - 0.5)))
  let power_score : ℝ :=
    if normalized_score < 0.5 then Real.rpow sigmoid_score 1.2
    else Real.rpow sigmoid_score 0.9
  let score_range : ℝ := (r.max_score : ℝ) - (r.min_score : ℝ)
  let final_score : ℝ := (r.min_score : ℝ) + power_score * score_range
  max r.min_score (min r.max_score (truncR final_score))

/- Comprehensive breakdown (lines 581-665) -/

/-- Rating labels returned by _get_score_rating (lines 652-665). -/
inductive Rating where
  | excellent | veryGood | good | fair | average | poor
deriving DecidableEq

/-- _get_score_rating (lines 652-665). -/
def get_score_rating (score : ℚ) : Rating :=
  if 90 ≤ score then .excellent
  else if 80 ≤ score then .veryGood
  else if 70 ≤ score then .good
  else if 60 ≤ score then .fair
  else if 50 ≤ score then .average
  else .poor

/-- Per-factor entry of the contributions dict (lines 603-608 and
623-629). -/
structure FactorContribution where
  weight_percentage : ℚ
  raw_score : ℚ
  weighted_contribution : ℚ
  score_rating : Rating
  contribution_percentage : ℚ
deriving DecidableEq

/-- One iteration of the contributions loop (lines 600-608) together with
the contribution-percentage fill-in of lines 623-629, which divides the
stored (rounded) weighted contribution by the adjusted total. -/
def mkContribution (raw_score weight adjusted_total : ℚ) : FactorContribution :=
  { weight_percentage := roundTo 1 (weight * 100)
    raw_score := roundTo 2 raw_score
    weighted_contribution := roundTo 2 (raw_score * weight)
    score_rating := get_score_rating raw_score
    contribution_percentage :=
      if 0 < adjusted_total then
        roundTo 1 (roundTo 2 (raw_score * weight) / adjusted_total * 100)
      else 0 }

/-- The result of get_comprehensive_score_breakdown (lines 581-650) with the
nesting flattened into one structure; field names are kept. -/
structure Breakdown where
  final_cibil_score : ℤ
  base_cibil_score : ℤ
  dynamic_range : DynamicRange
  custom_weights : Weights
  total_multiplier : ℚ
  underutilization_penalty : ℚ
  diversity_adjustment : ℚ
  consistency_adjustment : ℚ
  growth_adjustment : ℚ
  payment_history : FactorContribution
  credit_utilization : FactorContribution
  credit_history_length : FactorContribution
  credit_mix : FactorContribution
  new_credit : FactorContribution
  base_total_score : ℚ
  adjusted_total_score : ℚ
  improvement_potential : ℚ
  score_range_width : ℤ

/-- get_comprehensive_score_breakdown (lines 581-650), parametrized by the
weight configuration self.score_factors.  base_total sums the rounded
weighted contributions (line 611); adjusted_total applies the behavioral
multiplier to it (line 613); both are mapped through the same dynamic range
(lines 616-620). -/
noncomputable def get_comprehensive_score_breakdown
    (s : CustomerState) (w : Weights) (today : ℤ) : Breakdown :=
  let payment_history_score := calculate_payment_history_score s
  let credit_utilization_score := calculate_credit_utilization_score s
  let credit_history_length_score := calculate_credit_history_length_score s today
  let credit_mix_score := calculate_credit_mix_score s
  let new_credit_score := calculate_new_credit_score s today
  let base_total :=
    roundTo 2 (payment_history_score * w.payment_history) +
    roundTo 2 (credit_utilization_score * w.credit_utilization) +
    roundTo 2 (credit_history_length_score * w.credit_history_length) +
    roundTo 2 (credit_mix_score * w.credit_mix) +
    roundTo 2 (new_credit_score * w.new_credit)
  let behavioral_multiplier := get_behavioral_adjustments s today
  let adjusted_total := base_total * behavioral_multiplier
  let dynamic_range := calculate_dynamic_score_range s today
  { final_cibil_score := convert_to_dynamic_scale adjusted_total dynamic_range
    base_cibil_score := convert_to_dynamic_scale base_total dynamic_range
    dynamic_range := dynamic_range
    custom_weights :=
      { payment_history := roundTo 1 (w.payment_history * 100)
        credit_utilization := roundTo 1 (w.credit_utilization * 100)
        credit_history_length := roundTo 1 (w.credit_history_length * 100)
        credit_mix := roundTo 1 (w.credit_mix * 100)
        new_credit := roundTo 1 (w.new_credit * 100) }
    total_multiplier := behavioral_multiplier
    underutilization_penalty := get_underutilization_penalty s
    diversity_adjustment := get_credit_diversity_adjustment s
    consistency_adjustment := get_payment_consistency_adjustment s today
    growth_adjustment := get_credit_growth_adjustment s today
    payment_history := mkContribution payment_history_score w.payment_history adjusted_total
    credit_utilization := mkContribution credit_utilization_score w.credit_utilization adjusted_total
    credit_history_length := mkContribution credit_history_length_score w.credit_history_length adjusted_total
    credit_mix := mkContribution credit_mix_score w.credit_mix adjusted_total
    new_credit := mkContribution new_credit_score w.new_credit adjusted_total
    base_total_score := roundTo 2 base_total
    adjusted_total_score := roundTo 2 adjusted_total
    improvement_potential := roundTo 2 (100 - base_total)
    score_range_width := dynamic_range.range_width }

/- Declarative mode (UserInputCibilCalculator), modelled from the spec -/

/-- Modelled from the spec: the declarative-mode fact set (spec section 3).
The class UserInputCibilCalculator is imported by main_app/views.py but its
definition is not part of the source tree. -/
structure DeclarativeProfile where
  total_payments : ℕ
  on_time_payments : ℕ
  late_payments : ℕ
  missed_payments : ℕ
  total_credit_limit : ℚ
  current_balance : ℚ
  credit_history_years : ℚ
  has_credit_cards : Bool
  has_home_loan : Bool
  has_car_loan : Bool
  has_personal_loan : Bool
  has_bank_accounts : Bool
  recent_accounts_last_6_months : ℕ
deriving DecidableEq

/-- Modelled from the spec: the declarative-mode payment-history scorer
(spec section 4.2): zero total payments scores 0.0, and the missed penalty
factor is 60. -/
def declarative_payment_history_score (p : DeclarativeProfile) : ℚ :=
  if p.total_payments = 0 then 0.0
  else
    max 0 (100 * ((p.on_time_payments : ℚ) / p.total_payments) -
      30 * ((p.late_payments : ℚ) / p.total_payments) -
      60 * ((p.missed_payments : ℚ) / p.total_payments))

/-- Modelled from the spec: eager declarative-mode input validation followed
by scoring (spec sections 3 and 7, for the missing UserInputCibilCalculator).
The payment-count invariant is checked up front; a violation fails the whole
calculation with PaymentCountMismatch and no score is produced. -/
def declarative_calculate (p : DeclarativeProfile) : Except CalcError ℚ :=
  if p.on_time_payments + p.late_payments + p.missed_payments ≠ p.total_payments then
    .error .paymentCountMismatch
  else if p.current_balance < 0 ∨ p.credit_history_years < 0 then
    .error .negativeValue
  else
    .ok (declarative_payment_history_score p)

/- Lemmas about the rounding helpers -/

lemma floor_le_roundHE (q : ℚ) : ⌊q⌋ ≤ roundHE q := by
  unfold roundHE
  split_ifs <;> omega

lemma roundHE_le_floor_add_one (q : ℚ) : roundHE q ≤ ⌊q⌋ + 1 := by
  unfold roundHE
  split_ifs <;> omega

lemma roundHE_mono {x y : ℚ} (h : x ≤ y) : roundHE x ≤ roundHE y := by
  rcases lt_or_le ⌊x⌋ ⌊y⌋ with hf | hf
  · calc roundHE x ≤ ⌊x⌋ + 1 := roundHE_le_floor_add_one x
      _ ≤ ⌊y⌋ := by omega
      _ ≤ roundHE y := floor_le_roundHE y
  · have hfe : ⌊y⌋ = ⌊x⌋ := le_antisymm hf (Int.floor_le_floor h)
    have hqx : (⌊x⌋ : ℚ) ≤ x := Int.floor_le x
    unfold roundHE
    rw [hfe]
    split_ifs <;> first | omega | (exfalso; linarith)

lemma roundHE_intCast (k : ℤ) : roundHE (k : ℚ) = k := by
  unfold roundHE
  rw [Int.floor_intCast]
  norm_num

lemma roundTo_mono (n : ℕ) {x y : ℚ} (h : x ≤ y) : roundTo n x ≤ roundTo n y := by
  unfold roundTo
  have h10 : (0 : ℚ) < 10 ^ n := by positivity
  apply (div_le_div_iff_of_pos_right h10).mpr
  exact_mod_cast roundHE_mono (mul_le_mul_of_nonneg_right h h10.le)

lemma roundTo_intCast (n : ℕ) (k : ℤ) : roundTo n (k : ℚ) = k := by
  unfold roundTo
  have h10 : (0 : ℚ) < 10 ^ n := by positivity
  have hk : ((k : ℚ) * 10 ^ n) = ((k * 10 ^ n : ℤ) : ℚ) := by push_cast; ring
  rw [hk, roundHE_intCast]
  push_cast
  field_simp

lemma intCast_le_roundTo (n : ℕ) (k : ℤ) {q : ℚ} (h : (k : ℚ) ≤ q) :
    (k : ℚ) ≤ roundTo n q := by
  calc (k : ℚ) = roundTo n (k : ℚ) := (roundTo_intCast n k).symm
    _ ≤ roundTo n q := roundTo_mono n h

lemma roundTo_le_intCast (n : ℕ) (k : ℤ) {q : ℚ} (h : q ≤ (k : ℚ)) :
    roundTo n q ≤ (k : ℚ) := by
  calc roundTo n q ≤ roundTo n (k : ℚ) := roundTo_mono n h
    _ = (k : ℚ) := roundTo_intCast n k

lemma truncQ_of_nonneg {q : ℚ} (h : 0 ≤ q) : truncQ q = ⌊q⌋ := if_pos h

/- Bounds of the individual scorers -/

lemma utilization_bucket_bounds (r : ℚ) :
    0 ≤ utilization_bucket r ∧ utilization_bucket r ≤ 100 := by
  unfold utilization_bucket
  split_ifs <;> norm_num

lemma payment_history_from_counts_bounds (total onTime lateCount missedCount : ℕ)
    (h : onTime ≤ total) :
    0 ≤ payment_history_from_counts total onTime lateCount missedCount ∧
      payment_history_from_counts total onTime lateCount missedCount ≤ 100 := by
  unfold payment_history_from_counts
  split_ifs with h0
  · norm_num
  · have ht : (0 : ℚ) < total := by exact_mod_cast Nat.pos_of_ne_zero h0
    dsimp only
    constructor
    · have h0le : (0 : ℚ) ≤ max 0 ((onTime : ℚ) / total * 100 - (lateCount : ℚ) / total * 30 -
          (missedCount : ℚ) / total * 50) := le_max_left _ _
      have := intCast_le_roundTo 2 0 h0le
      simpa using this
    · have hup : max 0 ((onTime : ℚ) / total * 100 - (lateCount : ℚ) / total * 30 -
          (missedCount : ℚ) / total * 50) ≤ (100 : ℚ) := by
        apply max_le (by norm_num)
        have hdiv : (onTime : ℚ) / total ≤ 1 := (div_le_one ht).mpr (by exact_mod_cast h)
        have hl : (0 : ℚ) ≤ (lateCount : ℚ) / total * 30 := by positivity
        have hm : (0 : ℚ) ≤ (missedCount : ℚ) / total * 50 := by positivity
        nlinarith
      have := roundTo_le_intCast 2 100 hup
      simpa using this

/-- Claim C2: each of the five factor scorers returns a value in the closed
interval [0, 100] for every customer state (hence in particular for states
with no payments, no cards, no loans and no accounts) and every evaluation
date. -/
theorem factor_scores_bounded (s : CustomerState) (today : ℤ) :
    (0 ≤ calculate_payment_history_score s ∧ calculate_payment_history_score s ≤ 100) ∧
    (0 ≤ calculate_credit_utilization_score s ∧
      calculate_credit_utilization_score s ≤ 100) ∧
    (0 ≤ calculate_credit_history_length_score s today ∧
      calculate_credit_history_length_score s today ≤ 100) ∧
    (0 ≤ calculate_credit_mix_score s ∧ calculate_credit_mix_score s ≤ 100) ∧
    (0 ≤ calculate_new_credit_score s today ∧ calculate_new_credit_score s today ≤ 100) := by
  refine ⟨?_, ?_, ?_, ?_, ?_⟩
  · exact payment_history_from_counts_bounds _ _ _ _ (List.countP_le_length _)
  · unfold calculate_credit_utilization_score
    dsimp only
    split_ifs
    · norm_num
    · norm_num
    · exact utilization_bucket_bounds _
  · unfold calculate_credit_history_length_score
    split
    · norm_num
    · dsimp only
      split_ifs <;> norm_num
  · unfold calculate_credit_mix_score
    dsimp only
    constructor
    · refine le_min (by norm_num) ?_
      split_ifs <;> norm_num
    · exact le_trans (min_le_left _ _) (by norm_num)
  · unfold calculate_new_credit_score
    dsimp only
    split_ifs <;> norm_num

/- Monotonicity (claim C6) -/

lemma payment_history_from_counts_mono (total onTime lateCount missedCount a b : ℕ)
    (ha : a ≤ lateCount) (hb : b ≤ missedCount) :
    payment_history_from_counts total onTime lateCount missedCount ≤
      payment_history_from_counts total (onTime + a + b) (lateCount - a) (missedCount - b) := by
  unfold payment_history_from_counts
  split_ifs with h0
  · exact le_refl _
  · dsimp only
    apply roundTo_mono
    apply max_le_max (le_refl (0 : ℚ))
    have ht : (0 : ℚ) < total := by exact_mod_cast Nat.pos_of_ne_zero h0
    rw [← sub_nonneg]
    push_cast [Nat.cast_sub ha, Nat.cast_sub hb]
    have key : ((onTime : ℚ) + a + b) / total * 100 - ((lateCount : ℚ) - a) / total * 30 -
        ((missedCount : ℚ) - b) / total * 50 -
        ((onTime : ℚ) / total * 100 - (lateCount : ℚ) / total * 30 -
          (missedCount : ℚ) / total * 50) =
        ((a : ℚ) * 130 + (b : ℚ) * 150) / total := by
      field_simp
      ring
    rw [key]
    positivity

set_option maxHeartbeats 1600000 in
/-- Claim C6: with the total payment count held fixed, moving a late
payments and b missed payments into the on-time bucket never decreases the
payment-history score; and for two utilization values both past 0.10 the
larger one never receives the larger bucket score. -/
theorem score_monotonicity :
    (∀ total onTime lateCount missedCount a b : ℕ, a ≤ lateCount → b ≤ missedCount →
      payment_history_from_counts total onTime lateCount missedCount ≤
        payment_history_from_counts total (onTime + a + b) (lateCount - a) (missedCount - b)) ∧
    (∀ u₁ u₂ : ℚ, 0.10 < u₁ → u₁ ≤ u₂ →
      utilization_bucket u₂ ≤ utilization_bucket u₁) := by
  constructor
  · exact payment_history_from_counts_mono
  · intro u₁ u₂ h1 h2
    unfold utilization_bucket
    split_ifs <;> linarith

/-- Witness for claim C6 at concrete inputs: turning two late and one missed
payment of 10 into on-time ones, and comparing utilizations 0.2 and 0.6. -/
theorem score_monotonicity_witness :
    payment_history_from_counts 10 5 3 2 ≤
        payment_history_from_counts 10 (5 + 2 + 1) (3 - 2) (2 - 1) ∧
      utilization_bucket 0.6 ≤ utilization_bucket 0.2 :=
  ⟨score_monotonicity.1 10 5 3 2 2 1 (by norm_num) (by norm_num),
   score_monotonicity.2 0.2 0.6 (by norm_num) (by norm_num)⟩

/- The payment-history formula (claim C5) -/

/-- Count-level form of the payment-history formula exactly as claim C5
words it: 50.0 with zero total payments, otherwise
max(0, 100 on_time_ratio - 30 late_ratio - 50 missed_ratio), with no
rounding step. -/
def payment_history_claim_from_counts (total onTime lateCount missedCount : ℕ) : ℚ :=
  if total = 0 then 50.0
  else
    max 0 (100 * ((onTime : ℚ) / total) - 30 * ((lateCount : ℚ) / total) -
      50 * ((missedCount : ℚ) / total))

/-- The claim C5 formula value over a customer state, using the same
aggregate counts the source queries. -/
def payment_history_claim_value (s : CustomerState) : ℚ :=
  payment_history_claim_from_counts
    s.payments.length
    (s.payments.countP (fun p => p.payment_status = PaymentStatus.onTime))
    (s.payments.countP (fun p => isLateStatus p.payment_status))
    (s.payments.countP (fun p => isMissedStatus p.payment_status))

/-- Count-level form of the claim C5 formula with the rounding step the
source applies (round(score, 2), line 155) added: the amended claim. -/
def payment_history_claim_rounded_from_counts (total onTime lateCount missedCount : ℕ) : ℚ :=
  if total = 0 then 50.0
  else
    roundTo 2 (max 0 (100 * ((onTime : ℚ) / total) - 30 * ((lateCount : ℚ) / total) -
      50 * ((missedCount : ℚ) / total)))

/-- The amended claim C5 value over a customer state. -/
def payment_history_claim_value_rounded (s : CustomerState) : ℚ :=
  payment_history_claim_rounded_from_counts
    s.payments.length
    (s.payments.countP (fun p => p.payment_status = PaymentStatus.onTime))
    (s.payments.countP (fun p => isLateStatus p.payment_status))
    (s.payments.countP (fun p => isMissedStatus p.payment_status))

/-- A customer with three payment records: one on time and two late. -/
def phCexState : CustomerState :=
  { payments :=
      [{ payment_status := .onTime, payment_date := none },
       { payment_status := .late1_30, payment_date := none },
       { payment_status := .late1_30, payment_date := none }]
    cards := []
    loans := []
    accounts := [] }

/-- Claim C5 as stated fails on the source: with one on-time payment, two
late payments and no missed payments the source returns
round(40/3, 2) = 13.33 while the unrounded formula value is 40/3. -/
theorem payment_history_formula_counterexample :
    calculate_payment_history_score phCexState ≠ payment_history_claim_value phCexState := by
  have h1 : calculate_payment_history_score phCexState = 1333 / 100 := by
    have hc : calculate_payment_history_score phCexState =
        payment_history_from_counts 3 1 2 0 := rfl
    rw [hc]
    unfold payment_history_from_counts
    rw [if_neg (by norm_num)]
    dsimp only
    have hm : max (0 : ℚ) (((1 : ℕ) : ℚ) / ((3 : ℕ) : ℚ) * 100 -
        ((2 : ℕ) : ℚ) / ((3 : ℕ) : ℚ) * 30 - ((0 : ℕ) : ℚ) / ((3 : ℕ) : ℚ) * 50) = 40 / 3 := by
      rw [max_eq_right (by norm_num)]
      norm_num
    rw [hm]
    unfold roundTo roundHE
    have hf : ⌊(40 / 3 : ℚ) * 10 ^ 2⌋ = 1333 := by norm_num [Int.floor_eq_iff]
    rw [hf]
    norm_num
  have h2 : payment_history_claim_value phCexState = 40 / 3 := by
    have hc : payment_history_claim_value phCexState =
        payment_history_claim_from_counts 3 1 2 0 := rfl
    rw [hc]
    unfold payment_history_claim_from_counts
    rw [if_neg (by norm_num), max_eq_right (by norm_num)]
    norm_num
  rw [h1, h2]
  norm_num

/-- Claim C5 (amended): in derived mode the payment-history scorer returns
50.0 with zero payment records and otherwise
round(max(0, 100 on_time_ratio - 30 late_ratio - 50 missed_ratio), 2) -
the formula of the claim followed by the rounding to two decimal digits
that the source applies. -/
theorem payment_history_formula_amended (s : CustomerState) :
    calculate_payment_history_score s = payment_history_claim_value_rounded s := by
  unfold calculate_payment_history_score payment_history_claim_value_rounded
  unfold payment_history_from_counts payment_history_claim_rounded_from_counts
  split_ifs
  · rfl
  · dsimp only
    congr 1
    congr 1
    ring

/- Weight normalization (claims C3 and C8) -/

lemma total_weight_scaled (w : Weights) (t : ℚ) :
    total_weight
      { payment_history := w.payment_history / t
        credit_utilization := w.credit_utilization / t
        credit_history_length := w.credit_history_length / t
        credit_mix := w.credit_mix / t
        new_credit := w.new_credit / t } = total_weight w / t := by
  unfold total_weight
  dsimp only
  ring

/-- Claim C3: whenever the five filled weight fractions (after percentage
conversion and default filling) are nonnegative with a positive total, the
validation succeeds and the normalized weights sum to 1.0 within 1e-9, each
lying in [0, 1].  Over exact rationals the sum is exactly 1. -/
theorem weight_normalization_sound (cw : CustomWeights)
    (h1 : 0 ≤ (filled_weights cw).payment_history)
    (h2 : 0 ≤ (filled_weights cw).credit_utilization)
    (h3 : 0 ≤ (filled_weights cw).credit_history_length)
    (h4 : 0 ≤ (filled_weights cw).credit_mix)
    (h5 : 0 ≤ (filled_weights cw).new_credit)
    (hpos : 0 < total_weight (filled_weights cw)) :
    ∃ w : Weights, validate_and_normalize_weights cw = .ok w ∧
      |total_weight w - 1| ≤ 1 / 1000000000 ∧
      (0 ≤ w.payment_history ∧ w.payment_history ≤ 1) ∧
      (0 ≤ w.credit_utilization ∧ w.credit_utilization ≤ 1) ∧
      (0 ≤ w.credit_history_length ∧ w.credit_history_length ≤ 1) ∧
      (0 ≤ w.credit_mix ∧ w.credit_mix ≤ 1) ∧
      (0 ≤ w.new_credit ∧ w.new_credit ≤ 1) := by
  have hsum : total_weight (filled_weights cw) =
      (filled_weights cw).payment_history + (filled_weights cw).credit_utilization +
      (filled_weights cw).credit_history_length + (filled_weights cw).credit_mix +
      (filled_weights cw).new_credit := rfl
  have ht0 : total_weight (filled_weights cw) ≠ 0 := ne_of_gt hpos
  unfold validate_and_normalize_weights
  dsimp only
  by_cases heq : total_weight (filled_weights cw) = 1
  · rw [if_pos heq]
    refine ⟨filled_weights cw, rfl, ?_, ⟨h1, ?_⟩, ⟨h2, ?_⟩, ⟨h3, ?_⟩, ⟨h4, ?_⟩, ⟨h5, ?_⟩⟩
    · rw [heq]; norm_num
    · rw [hsum] at heq; linarith
    · rw [hsum] at heq; linarith
    · rw [hsum] at heq; linarith
    · rw [hsum] at heq; linarith
    · rw [hsum] at heq; linarith
  · rw [if_neg heq, if_neg ht0]
    refine ⟨_, rfl, ?_, ⟨?_, ?_⟩, ⟨?_, ?_⟩, ⟨?_, ?_⟩, ⟨?_, ?_⟩, ⟨?_, ?_⟩⟩ <;> dsimp only
    · rw [total_weight_scaled, div_self ht0]
      norm_num
    · exact div_nonneg h1 hpos.le
    · rw [div_le_one hpos]; rw [hsum] at hpos ⊢; linarith
    · exact div_nonneg h2 hpos.le
    · rw [div_le_one hpos]; rw [hsum] at hpos ⊢; linarith
    · exact div_nonneg h3 hpos.le
    · rw [div_le_one hpos]; rw [hsum] at hpos ⊢; linarith
    · exact div_nonneg h4 hpos.le
    · rw [div_le_one hpos]; rw [hsum] at hpos ⊢; linarith
    · exact div_nonneg h5 hpos.le
    · rw [div_le_one hpos]; rw [hsum] at hpos ⊢; linarith

/-- The weight mapping of spec scenario 3: percentages 35/25/15/15/10. -/
def exCustomWeights : CustomWeights :=
  { payment_history := some 35
    credit_utilization := some 25
    credit_history_length := some 15
    credit_mix := some 15
    new_credit := some 10 }

/-- Witness for claim C3 on the scenario-3 weight mapping. -/
theorem weight_normalization_sound_witness :
    ∃ w : Weights, validate_and_normalize_weights exCustomWeights = .ok w ∧
      |total_weight w - 1| ≤ 1 / 1000000000 ∧
      (0 ≤ w.payment_history ∧ w.payment_history ≤ 1) ∧
      (0 ≤ w.credit_utilization ∧ w.credit_utilization ≤ 1) ∧
      (0 ≤ w.credit_history_length ∧ w.credit_history_length ≤ 1) ∧
      (0 ≤ w.credit_mix ∧ w.credit_mix ≤ 1) ∧
      (0 ≤ w.new_credit ∧ w.new_credit ≤ 1) :=
  weight_normalization_sound exCustomWeights
    (by norm_num [filled_weights, resolve_weight, convert_weight, exCustomWeights])
    (by norm_num [filled_weights, resolve_weight, convert_weight, exCustomWeights])
    (by norm_num [filled_weights, resolve_weight, convert_weight, exCustomWeights])
    (by norm_num [filled_weights, resolve_weight, convert_weight, exCustomWeights])
    (by norm_num [filled_weights, resolve_weight, convert_weight, exCustomWeights])
    (by norm_num [total_weight, filled_weights, resolve_weight, convert_weight, exCustomWeights])

/-- Claim C8: a zero total of the five filled weight fractions makes the
weight validation fail with ZeroTotalWeight; the error is signaled by the
validation itself and no weight set is produced. -/
theorem zero_total_weight_fails (cw : CustomWeights)
    (h : total_weight (filled_weights cw) = 0) :
    validate_and_normalize_weights cw = .error .zeroTotalWeight := by
  unfold validate_and_normalize_weights
  dsimp only
  rw [if_neg (by rw [h]; norm_num), if_pos h]

/-- The all-zero weight mapping: every factor supplied as 0. -/
def zeroCustomWeights : CustomWeights :=
  { payment_history := some 0
    credit_utilization := some 0
    credit_history_length := some 0
    credit_mix := some 0
    new_credit := some 0 }

/-- Witness for claim C8 on the all-zero weight mapping. -/
theorem zero_total_weight_fails_witness :
    validate_and_normalize_weights zeroCustomWeights = .error .zeroTotalWeight :=
  zero_total_weight_fails zeroCustomWeights
    (by norm_num [total_weight, filled_weights, resolve_weight, convert_weight,
      zeroCustomWeights])

/- Declarative-mode payment-count validation (claim C9) -/

/-- Claim C9: in declarative mode any fact set whose on-time, late and
missed counts do not add up to the total payment count fails the whole
calculation with PaymentCountMismatch; the counts are not clamped or
repaired and no score is produced. -/
theorem payment_count_mismatch_fails (p : DeclarativeProfile)
    (h : p.on_time_payments + p.late_payments + p.missed_payments ≠ p.total_payments) :
    declarative_calculate p = .error .paymentCountMismatch := by
  unfold declarative_calculate
  rw [if_pos h]

/-- The fact set of spec scenario 5: total 100 with counts 50/10/10. -/
def mismatchProfile : DeclarativeProfile :=
  { total_payments := 100
    on_time_payments := 50
    late_payments := 10
    missed_payments := 10
    total_credit_limit := 0
    current_balance := 0
    credit_history_years := 0
    has_credit_cards := false
    has_home_loan := false
    has_car_loan := false
    has_personal_loan := false
    has_bank_accounts := false
    recent_accounts_last_6_months := 0 }

/-- Witness for claim C9 on the scenario-5 fact set. -/
theorem payment_count_mismatch_fails_witness :
    declarative_calculate mismatchProfile = .error .paymentCountMismatch :=
  payment_count_mismatch_fails mismatchProfile (by decide)

/- Credit-growth adjustment (claim C10) -/

/-- Claim C10: the derived-mode credit-growth score only takes the values
50.0, 60.0, 70.0 and 85.0, so the growth adjustment is always 1.0 or 1.02
and the penalty branch returning 0.98 (growth score above 90 or below 30)
is unreachable. -/
theorem growth_adjustment_never_penalizes (s : CustomerState) (today : ℤ) :
    (get_credit_growth_score s today = 50.0 ∨ get_credit_growth_score s today = 60.0 ∨
      get_credit_growth_score s today = 70.0 ∨ get_credit_growth_score s today = 85.0) ∧
    (get_credit_growth_adjustment s today = 1.0 ∨
      get_credit_growth_adjustment s today = 1.02) ∧
    get_credit_growth_adjustment s today ≠ 0.98 := by
  have hval : get_credit_growth_score s today = 50.0 ∨
      get_credit_growth_score s today = 60.0 ∨
      get_credit_growth_score s today = 70.0 ∨
      get_credit_growth_score s today = 85.0 := by
    unfold get_credit_growth_score
    dsimp only
    split_ifs <;> norm_num
  have hadj : get_credit_growth_adjustment s today = 1.0 ∨
      get_credit_growth_adjustment s today = 1.02 := by
    unfold get_credit_growth_adjustment
    dsimp only
    rcases hval with h | h | h | h <;> rw [h] <;> norm_num
  refine ⟨hval, hadj, ?_⟩
  rcases hadj with h | h <;> rw [h] <;> norm_num

/- Dynamic range ordering (claim C7) -/

lemma maturity_adjustment_bounds (y : ℚ) :
    -0.1 ≤ maturity_adjustment y ∧ maturity_adjustment y ≤ 0.2 := by
  unfold maturity_adjustment
  split_ifs <;> norm_num

lemma exposure_adjustment_bounds (l : ℚ) :
    -0.05 ≤ exposure_adjustment l ∧ exposure_adjustment l ≤ 0.15 := by
  unfold exposure_adjustment
  split_ifs <;> norm_num

lemma diversity_adjustment_bounds (d : ℚ) :
    -0.05 ≤ diversity_adjustment d ∧ diversity_adjustment d ≤ 0.1 := by
  unfold diversity_adjustment
  split_ifs <;> norm_num

lemma range_multiplier_bounds (s : CustomerState) (today : ℤ) :
    0.8 ≤ range_multiplier s today ∧ range_multiplier s today ≤ 1.45 := by
  obtain ⟨a1, a2⟩ := maturity_adjustment_bounds (get_credit_age_years s today)
  obtain ⟨b1, b2⟩ := exposure_adjustment_bounds (get_total_credit_limit s)
  obtain ⟨c1, c2⟩ := diversity_adjustment_bounds (get_account_diversity_score s)
  unfold range_multiplier
  constructor <;> linarith

lemma dynamic_range_min_lt_max (s : CustomerState) (today : ℤ) :
    (calculate_dynamic_score_range s today).min_score <
      (calculate_dynamic_score_range s today).max_score := by
  obtain ⟨hm1, hm2⟩ := range_multiplier_bounds s today
  unfold calculate_dynamic_score_range
  dsimp only
  set m := range_multiplier s today with hm
  have he1 : (base_max_score - base_min_score) * (m - 1) ≤ 360 := by
    unfold base_min_score base_max_score
    linarith
  have he2 : -160 ≤ (base_max_score - base_min_score) * (m - 1) := by
    unfold base_min_score base_max_score
    linarith
  set e := (base_max_score - base_min_score) * (m - 1) with hee
  have hq1 : (0 : ℚ) ≤ base_min_score - e / 2 := by
    unfold base_min_score
    linarith
  have hq2 : (0 : ℚ) ≤ base_max_score + e / 2 := by
    unfold base_max_score
    linarith
  have h280 : (⌊(280 : ℚ)⌋ : ℤ) = 280 := by norm_num
  have h920 : (⌊(920 : ℚ)⌋ : ℤ) = 920 := by norm_num
  have h1 : truncQ (base_min_score - e / 2) ≤ 280 := by
    rw [truncQ_of_nonneg hq1, ← h280]
    exact Int.floor_le_floor (by unfold base_min_score; linarith)
  have h2 : (920 : ℤ) ≤ truncQ (base_max_score + e / 2) := by
    rw [truncQ_of_nonneg hq2, ← h920]
    exact Int.floor_le_floor (by unfold base_max_score; linarith)
  have hmin : max (150 : ℤ) (truncQ (base_min_score - e / 2)) ≤ 280 :=
    max_le (by norm_num) h1
  have hmax : (920 : ℤ) ≤ min 1200 (truncQ (base_max_score + e / 2)) :=
    le_min (by norm_num) h2
  omega

/-- Claim C7: for every derived-mode customer state and evaluation date the
dynamic range calculator returns max_score strictly greater than min_score,
and the reported range_width equals max_score - min_score and is therefore
positive; this holds for every value the additive multiplier adjustments
can reach, the extremes included. -/
theorem dynamic_range_ordered (s : CustomerState) (today : ℤ) :
    (calculate_dynamic_score_range s today).min_score <
      (calculate_dynamic_score_range s today).max_score ∧
    (calculate_dynamic_score_range s today).range_width =
      (calculate_dynamic_score_range s today).max_score -
        (calculate_dynamic_score_range s today).min_score ∧
    0 < (calculate_dynamic_score_range s today).range_width := by
  have h := dynamic_range_min_lt_max s today
  have hw : (calculate_dynamic_score_range s today).range_width =
      (calculate_dynamic_score_range s today).max_score -
        (calculate_dynamic_score_range s today).min_score := rfl
  exact ⟨h, hw, by omega⟩

/- Range containment of the converted scores (claim C1) -/

lemma min_le_convert (x : ℚ) (r : DynamicRange) :
    r.min_score ≤ convert_to_dynamic_scale x r := by
  unfold convert_to_dynamic_scale
  dsimp only
  exact le_max_left _ _

lemma convert_le_max_of (x : ℚ) (r : DynamicRange) (h : r.min_score ≤ r.max_score) :
    convert_to_dynamic_scale x r ≤ r.max_score := by
  unfold convert_to_dynamic_scale
  dsimp only
  exact max_le h (min_le_left _ _)

/-- Claim C1: for every customer state, weight configuration and evaluation
date, the base and final CIBIL scores reported by the comprehensive
breakdown lie within [min_score, max_score] of the dynamic range computed
in the same calculation, and the reported range_width equals
max_score - min_score. -/
theorem breakdown_scores_in_range (s : CustomerState) (w : Weights) (today : ℤ) :
    ((get_comprehensive_score_breakdown s w today).dynamic_range.min_score ≤
        (get_comprehensive_score_breakdown s w today).base_cibil_score ∧
      (get_comprehensive_score_breakdown s w today).base_cibil_score ≤
        (get_comprehensive_score_breakdown s w today).dynamic_range.max_score) ∧
    ((get_comprehensive_score_breakdown s w today).dynamic_range.min_score ≤
        (get_comprehensive_score_breakdown s w today).final_cibil_score ∧
      (get_comprehensive_score_breakdown s w today).final_cibil_score ≤
        (get_comprehensive_score_breakdown s w today).dynamic_range.max_score) ∧
    (get_comprehensive_score_breakdown s w today).dynamic_range.range_width =
      (get_comprehensive_score_breakdown s w today).dynamic_range.max_score -
        (get_comprehensive_score_breakdown s w today).dynamic_range.min_score := by
  have hle := le_of_lt (dynamic_range_min_lt_max s today)
  unfold get_comprehensive_score_breakdown
  dsimp only
  exact ⟨⟨min_le_convert _ _, convert_le_max_of _ _ hle⟩,
    ⟨min_le_convert _ _, convert_le_max_of _ _ hle⟩, rfl⟩

/- Clock dependence of the engine (claim C4) -/

/-- A customer whose only record is a bank account opened on day 0. -/
def clockCexState : CustomerState :=
  { payments := []
    cards := []
    loans := []
    accounts := [{ account_opened_date := 0, is_active := true }] }

lemma clockCex_hist_at_400 :
    calculate_credit_history_length_score clockCexState 400 = 40.0 := by
  have hd : listMinD (oldest_dates clockCexState) = some 0 := rfl
  unfold calculate_credit_history_length_score
  rw [hd]
  norm_num

lemma clockCex_hist_at_2000 :
    calculate_credit_history_length_score clockCexState 2000 = 70.0 := by
  have hd : listMinD (oldest_dates clockCexState) = some 0 := rfl
  unfold calculate_credit_history_length_score
  rw [hd]
  norm_num

lemma breakdown_clock_dependent :
    get_comprehensive_score_breakdown clockCexState default_score_factors 400 ≠
      get_comprehensive_score_breakdown clockCexState default_score_factors 2000 := by
  intro hcontra
  have hproj := congrArg (fun b => b.credit_history_length.raw_score) hcontra
  simp only [get_comprehensive_score_breakdown, mkContribution] at hproj
  rw [clockCex_hist_at_400, clockCex_hist_at_2000] at hproj
  rw [show (40.0 : ℚ) = ((40 : ℤ) : ℚ) by norm_num,
    show (70.0 : ℚ) = ((70 : ℤ) : ℚ) by norm_num,
    roundTo_intCast, roundTo_intCast] at hproj
  norm_num at hproj

/-- Claim C4 as stated fails on the source: identical profile facts and
weights evaluated at two different wall-clock dates produce different
outputs, because the credit-history-length and new-credit scorers (and the
range and behavioral helpers) read the current time. -/
theorem engine_clock_counterexample :
    get_comprehensive_score_breakdown clockCexState default_score_factors 400 ≠
      get_comprehensive_score_breakdown clockCexState default_score_factors 2000 :=
  breakdown_clock_dependent

/-- Claim C4 (amended): the engine is a pure function of the profile, the
weights and the evaluation date: two runs agree whenever all three inputs
coincide, while runs at different dates can differ, so determinism holds
only relative to inputs that include the current date. -/
theorem engine_deterministic_given_date :
    (∀ (s : CustomerState) (w : Weights) (t₁ t₂ : ℤ), t₁ = t₂ →
      get_comprehensive_score_breakdown s w t₁ =
        get_comprehensive_score_breakdown s w t₂) ∧
    (∃ (s : CustomerState) (w : Weights) (t₁ t₂ : ℤ),
      get_comprehensive_score_breakdown s w t₁ ≠
        get_comprehensive_score_breakdown s w t₂) :=
  ⟨fun _ _ _ _ h => by rw [h],
   ⟨clockCexState, default_score_factors, 400, 2000, breakdown_clock_dependent⟩⟩

/-- Witness for the amended claim C4 at a concrete profile, weight set and
date. -/
theorem engine_deterministic_given_date_witness :
    get_comprehensive_score_breakdown clockCexState default_score_factors 400 =
      get_comprehensive_score_breakdown clockCexState default_score_factors 400 :=
  engine_deterministic_given_date.1 clockCexState default_score_factors 400 400 rfl

end Cibil
